import Mathlib

/-!
Shallow embedding of `ros2_ouster/src/ouster_driver.cpp` from the
`ros2_ouster_drivers` repository.

The driver is a lifecycle-managed ROS 2 node.  We model its member state as
an explicit record (`DriverState`) and each member function of `OusterDriver`
as a Lean function from state to a `StepResult`: the updated state, the list
of externally visible events the call produced (socket opens, transform
broadcasts, publications, fatal logs, process exit), and an optional raised
error (an uncaught C++ exception or a null-handle dereference).

ROS parameter handling follows the rclcpp interface boundary: a parameter
must be declared before `get_parameter` can read it; declaring a required
parameter (no default value) fails when no override supplies a value, which
the constructor catches and turns into a fatal exit.  The sensor handle
(`OS1Sensor` behind `SensorInterface`) and the lifecycle base class are not
part of the translated source file; the few facts needed about them are
modelled from the spec and marked as such in doc comments.
-/

namespace Ros2Ouster

/-- A ROS parameter value (only the types this driver uses). -/
inductive ParamValue where
  | IntV (i : Int)
  | StrV (s : String)
deriving DecidableEq, Repr

/-- The declared-parameter map of the node: name, value pairs. -/
abbrev Params := List (String × ParamValue)

/-- Look a parameter up by name. -/
def lookupParam (ps : Params) (name : String) : Option ParamValue :=
  (ps.find? (fun p => p.1 == name)).map Prod.snd

/-- Errors a driver call can raise (uncaught exceptions / UB on null). -/
inductive DriverErr where
  | paramNotDeclared (name : String)
  | wrongParamType (name : String)
  | nullSensor
deriving DecidableEq, Repr

/-- `get_parameter(name).as_string()`: fails if undeclared or not a string. -/
def getParamString (ps : Params) (name : String) : Except DriverErr String :=
  match lookupParam ps name with
  | none => .error (.paramNotDeclared name)
  | some (.StrV v) => .ok v
  | some _ => .error (.wrongParamType name)

/-- `get_parameter(name).as_int()`: fails if undeclared or not an int. -/
def getParamInt (ps : Params) (name : String) : Except DriverErr Int :=
  match lookupParam ps name with
  | none => .error (.paramNotDeclared name)
  | some (.IntV v) => .ok v
  | some _ => .error (.wrongParamType name)

/-- A rigid 3D transform, kept abstract (its numeric content is irrelevant
to the claims; only identity of the value matters). -/
structure Transform where
  id : Nat
deriving DecidableEq, Repr

/-- `ros2_ouster::Metadata`: calibration data from the sensor handshake. -/
structure Metadata where
  lidar_to_sensor_transform : Transform
  imu_to_sensor_transform : Transform
deriving DecidableEq, Repr

/-- `ros2_ouster::Configuration`, filled from parameters in `onConfigure`
and in `resetService`. -/
structure Configuration where
  lidar_ip : String
  computer_ip : String
  imu_port : Int
  lidar_port : Int
  lidar_mode : String
deriving DecidableEq, Repr

/-- `geometry_msgs::msg::TransformStamped` as produced by `toMsg(tf, frame,
child_frame, time)`: the transform, its parent frame and its child frame.
The timestamp is omitted (irrelevant to the claims). -/
structure TransformStamped where
  transform : Transform
  frame : String
  child_frame : String
deriving DecidableEq, Repr

/-- Externally visible effects of a driver call. -/
inductive Event where
  | socketOpen (c : Configuration)
  | sensorResetEv (c : Configuration)
  | sendTransforms (tfs : List TransformStamped)
  | publish (channel : String)
  | fatalLog (msg : String)
  | exitCall (code : Int)
deriving DecidableEq, Repr

/-- Modelled from the spec: the sensor handle (`OS1Sensor` behind
`SensorInterface`, whose implementation is not in the translated source).
Per the spec it owns the PacketSource connection and the Metadata obtained
by the handshake; `configure` opens the sockets and performs the handshake,
`reset` re-runs the handshake, `getMetadata` is a snapshot read. -/
structure Sensor where
  config : Configuration
  metadata : Metadata
  connected : Bool
deriving DecidableEq, Repr

/-- Modelled from the spec: `SensorInterface::configure` — open the sockets
bound per the configuration and perform the metadata handshake.  `hw` is the
sensor hardware's handshake response. -/
def sensorConfigure (hw : Configuration → Metadata) (c : Configuration) :
    Sensor × List Event :=
  (⟨c, hw c, true⟩, [.socketOpen c])

/-- Modelled from the spec: `SensorInterface::reset` — re-handshake with the
sensor, replacing configuration and metadata wholesale. -/
def sensorReset (hw : Configuration → Metadata) (c : Configuration) :
    Sensor × List Event :=
  (⟨c, hw c, true⟩, [.sensorResetEv c])

/-- The lifecycle states of a managed node. -/
inductive LifecycleState where
  | Unconfigured
  | Inactive
  | Active
  | Finalized
  | ErrorProcessing
deriving DecidableEq, Repr

/-- The member state of `OusterDriver`.  A lifecycle publisher is modelled
by its activation flag (`some b` = publisher exists, `b` = activated);
`tf_b` is whether the static transform broadcaster exists; `process_timer`
holds the wall-timer period in nanoseconds when the timer exists. -/
structure DriverState where
  lifecycle : LifecycleState
  params : Params
  range_im_pub : Option Bool
  intensity_im_pub : Option Bool
  noise_im_pub : Option Bool
  imu_pub : Option Bool
  pc_pub : Option Bool
  reset_srv : Bool
  metadata_srv : Bool
  sensor : Option Sensor
  tf_b : Bool
  process_timer : Option Nat
deriving DecidableEq, Repr

/-- Modelled from the spec: `LifecycleInterface::isActive` — true exactly in
the Active lifecycle state. -/
def DriverState.isActive (s : DriverState) : Bool :=
  s.lifecycle == .Active

/-- Result of one driver call: updated member state, emitted events, and an
error if the call raised (uncaught exception or null dereference). -/
structure StepResult where
  state : DriverState
  events : List Event
  err : Option DriverErr
deriving DecidableEq, Repr

/-- The fatal diagnostic printed by the constructor when a required address
parameter is missing. -/
def fatalMsg : String :=
  "Failed to get lidar or IMU IP address or hostname. An IP address for both are required!"

/-- The events of the constructor's fatal path: the RCLCPP_FATAL diagnostic
followed by `exit(-1)`. -/
def fatalCtorEvents : List Event := [.fatalLog fatalMsg, .exitCall (-1)]

/-- Outcome of the constructor: either the process terminated fatally
(diagnostic logged, `exit(-1)` called, no driver object ever exists), or a
constructed driver state. -/
inductive CtorResult where
  | fatalExit (events : List Event)
  | ok (s : DriverState)
deriving DecidableEq, Repr

/-- `declare_parameter(name, default)`: the parameter takes the override's
value when one is supplied, else the default. -/
def declareParamDefault (ov ps : Params) (name : String) (dflt : ParamValue) :
    Params :=
  ps ++ [(name, (lookupParam ov name).getD dflt)]

/-- `OusterDriver::OusterDriver` (the constructor).  `ov` is the set of
parameter overrides supplied from outside (launch file / command line).
Declaring `lidar_ip` or `computer_ip` with no default fails when no override
supplies a value; the catch block logs a fatal diagnostic and calls
`exit(-1)`.  The remaining parameters are declared with their defaults. -/
def ousterDriverCtor (ov : Params) : CtorResult :=
  match lookupParam ov "lidar_ip" with
  | none => .fatalExit fatalCtorEvents
  | some v1 =>
    match lookupParam ov "computer_ip" with
    | none => .fatalExit fatalCtorEvents
    | some v2 =>
      let ps : Params := [("lidar_ip", v1), ("computer_ip", v2)]
      let ps := declareParamDefault ov ps "imu_port" (.IntV 7503)
      let ps := declareParamDefault ov ps "lidar_port" (.IntV 7502)
      let ps := declareParamDefault ov ps "lidar_mode" (.StrV "512x10")
      let ps := declareParamDefault ov ps "sensor_frame" (.StrV "laser_sensor_frame")
      let ps := declareParamDefault ov ps "laser_frame" (.StrV "laser_data_frame")
      let ps := declareParamDefault ov ps "imu_frame" (.StrV "imu_data_frame")
      .ok
        { lifecycle := .Unconfigured
          params := ps
          range_im_pub := none
          intensity_im_pub := none
          noise_im_pub := none
          imu_pub := none
          pc_pub := none
          reset_srv := false
          metadata_srv := false
          sensor := none
          tf_b := false
          process_timer := none }

/-- `OusterDriver::broadcastStaticTransforms`.  Reads the three frame
parameters under the names `laser_sensor_frame`, `laser_data_frame`,
`imu_data_frame` (note: these are the declared parameters' default VALUES,
not their declared NAMES `sensor_frame` / `laser_frame` / `imu_frame`); if
the broadcaster exists, sends the two static transforms built from the
sensor's metadata. -/
def broadcastStaticTransforms (s : DriverState) : StepResult :=
  match getParamString s.params "laser_sensor_frame" with
  | .error e => ⟨s, [], some e⟩
  | .ok laser_sensor_frame =>
    match getParamString s.params "laser_data_frame" with
    | .error e => ⟨s, [], some e⟩
    | .ok laser_data_frame =>
      match getParamString s.params "imu_data_frame" with
      | .error e => ⟨s, [], some e⟩
      | .ok imu_data_frame =>
        if s.tf_b then
          match s.sensor with
          | none => ⟨s, [], some .nullSensor⟩
          | some sen =>
            ⟨s,
              [.sendTransforms
                [⟨sen.metadata.imu_to_sensor_transform,
                  laser_sensor_frame, imu_data_frame⟩,
                 ⟨sen.metadata.lidar_to_sensor_transform,
                  laser_sensor_frame, laser_data_frame⟩]],
              none⟩
        else ⟨s, [], none⟩

/-- Builds a `Configuration` from the five configuration parameters, as done
identically at the top of `onConfigure` and in `resetService`. -/
def readConfiguration (ps : Params) : Except DriverErr Configuration :=
  match getParamString ps "lidar_ip" with
  | .error e => .error e
  | .ok lip =>
    match getParamString ps "computer_ip" with
    | .error e => .error e
    | .ok cip =>
      match getParamInt ps "imu_port" with
      | .error e => .error e
      | .ok ipt =>
        match getParamInt ps "lidar_port" with
        | .error e => .error e
        | .ok lpt =>
          match getParamString ps "lidar_mode" with
          | .error e => .error e
          | .ok lm => .ok ⟨lip, cip, ipt, lpt, lm⟩

/-- `OusterDriver::onConfigure`: read the configuration parameters, create
the five publishers (inactive) and the two services, configure the sensor
(opening the sockets and performing the handshake), create the static
transform broadcaster, and broadcast the static transforms.  An exception
raised along the way escapes to the lifecycle machinery with the member
mutations made so far kept. -/
def onConfigure (hw : Configuration → Metadata) (s : DriverState) :
    StepResult :=
  match readConfiguration s.params with
  | .error e => ⟨s, [], some e⟩
  | .ok cfg =>
    let s1 := { s with
      range_im_pub := some false
      intensity_im_pub := some false
      noise_im_pub := some false
      imu_pub := some false
      pc_pub := some false
      reset_srv := true
      metadata_srv := true }
    let sc := sensorConfigure hw cfg
    let s2 := { s1 with sensor := some sc.1 }
    let s3 := { s2 with tf_b := true }
    let r := broadcastStaticTransforms s3
    ⟨r.state, sc.2 ++ r.events, r.err⟩

/-- The wall-timer period, in nanoseconds, used by `onActivate`
(`create_wall_timer(781250ns, ...)`). -/
def timerPeriodNs : Nat := 781250

/-- `OusterDriver::onActivate`: activate each of the five publishers and
start the periodic processing wall timer.  A missing publisher would be a
null dereference. -/
def onActivate (s : DriverState) : StepResult :=
  match s.range_im_pub, s.intensity_im_pub, s.noise_im_pub,
      s.pc_pub, s.imu_pub with
  | some _, some _, some _, some _, some _ =>
    ⟨{ s with
        range_im_pub := some true
        intensity_im_pub := some true
        noise_im_pub := some true
        pc_pub := some true
        imu_pub := some true
        process_timer := some timerPeriodNs }, [], none⟩
  | _, _, _, _, _ => ⟨s, [], some .nullSensor⟩

/-- `OusterDriver::onDeactivate`: deactivate each of the five publishers and
drop the processing timer. -/
def onDeactivate (s : DriverState) : StepResult :=
  match s.range_im_pub, s.intensity_im_pub, s.noise_im_pub,
      s.pc_pub, s.imu_pub with
  | some _, some _, some _, some _, some _ =>
    ⟨{ s with
        range_im_pub := some false
        intensity_im_pub := some false
        noise_im_pub := some false
        pc_pub := some false
        imu_pub := some false
        process_timer := none }, [], none⟩
  | _, _, _, _, _ => ⟨s, [], some .nullSensor⟩

/-- `OusterDriver::onCleanup`: reset (release) the five publishers, the
sensor handle and the transform broadcaster.  `shared_ptr::reset` on an
already-null handle is a no-op, so no preconditions. -/
def onCleanup (s : DriverState) : StepResult :=
  ⟨{ s with
      range_im_pub := none
      intensity_im_pub := none
      noise_im_pub := none
      pc_pub := none
      imu_pub := none
      sensor := none
      tf_b := false }, [], none⟩

/-- `OusterDriver::onShutdown`: the body is empty. -/
def onShutdown (s : DriverState) : StepResult := ⟨s, [], none⟩

/-- `OusterDriver::onError`: the body is empty. -/
def onError (s : DriverState) : StepResult := ⟨s, [], none⟩

/-- `OusterDriver::processData`: the body is entirely commented out (a
TODO stub). -/
def processData (s : DriverState) : StepResult := ⟨s, [], none⟩

/-- `OusterDriver::resetService`: returns immediately when not Active;
otherwise rebuilds the configuration from the current parameters and calls
`_sensor->reset` (re-handshake). -/
def resetService (hw : Configuration → Metadata) (s : DriverState) :
    StepResult :=
  if !s.isActive then ⟨s, [], none⟩
  else
    match readConfiguration s.params with
    | .error e => ⟨s, [], some e⟩
    | .ok cfg =>
      match s.sensor with
      | none => ⟨s, [], some .nullSensor⟩
      | some _ =>
        let sr := sensorReset hw cfg
        ⟨{ s with sensor := some sr.1 }, sr.2, none⟩

/-- `OusterDriver::getMetadata` (the get-metadata service): returns
immediately, writing no response, when not Active; otherwise writes the
sensor's metadata snapshot into the response.  The second component is the
response payload written (`none` = response left untouched). -/
def getMetadataSrv (s : DriverState) : StepResult × Option Metadata :=
  if !s.isActive then (⟨s, [], none⟩, none)
  else
    match s.sensor with
    | none => (⟨s, [], some .nullSensor⟩, none)
    | some sen => (⟨s, [], none⟩, some sen.metadata)

/-- The channels of the publish events in a trace. -/
def publishedChannels (evs : List Event) : List String :=
  evs.filterMap (fun e =>
    match e with
    | .publish c => some c
    | _ => none)

/-- The transform batches sent in a trace. -/
def sentTransforms (evs : List Event) : List (List TransformStamped) :=
  evs.filterMap (fun e =>
    match e with
    | .sendTransforms t => some t
    | _ => none)

/-- The socket-open events in a trace. -/
def socketOpens (evs : List Event) : List Configuration :=
  evs.filterMap (fun e =>
    match e with
    | .socketOpen c => some c
    | _ => none)

/-- Runs `n` consecutive `processData` timer cycles, accumulating events. -/
def runCycles : Nat → DriverState → DriverState × List Event
  | 0, s => (s, [])
  | n + 1, s =>
    let r := processData s
    let rest := runCycles n r.state
    (rest.1, r.events ++ rest.2)

/-! Sample concrete values used by witnesses. -/

/-- A sample sensor hardware handshake response. -/
def hw0 : Configuration → Metadata := fun _ => ⟨⟨0⟩, ⟨1⟩⟩

/-- Sample parameter overrides supplying both required addresses. -/
def ov0 : Params :=
  [("lidar_ip", .StrV "10.5.5.1"), ("computer_ip", .StrV "10.5.5.5")]

/-- The declared-parameter map after the constructor runs on `ov0`. -/
def params0 : Params :=
  [("lidar_ip", .StrV "10.5.5.1"), ("computer_ip", .StrV "10.5.5.5"),
   ("imu_port", .IntV 7503), ("lidar_port", .IntV 7502),
   ("lidar_mode", .StrV "512x10"),
   ("sensor_frame", .StrV "laser_sensor_frame"),
   ("laser_frame", .StrV "laser_data_frame"),
   ("imu_frame", .StrV "imu_data_frame")]

/-- The driver state right after the constructor runs on `ov0`. -/
def ctorState0 : DriverState :=
  { lifecycle := .Unconfigured
    params := params0
    range_im_pub := none
    intensity_im_pub := none
    noise_im_pub := none
    imu_pub := none
    pc_pub := none
    reset_srv := false
    metadata_srv := false
    sensor := none
    tf_b := false
    process_timer := none }

/-- The configuration read back from `params0`. -/
def cfg0 : Configuration := ⟨"10.5.5.1", "10.5.5.5", 7503, 7502, "512x10"⟩

/-- A sample connected sensor handle. -/
def sen0 : Sensor := ⟨cfg0, hw0 cfg0, true⟩

/-- A sample configured, Inactive driver state. -/
def sInactive0 : DriverState :=
  { lifecycle := .Inactive
    params := params0
    range_im_pub := some false
    intensity_im_pub := some false
    noise_im_pub := some false
    imu_pub := some false
    pc_pub := some false
    reset_srv := true
    metadata_srv := true
    sensor := some sen0
    tf_b := true
    process_timer := none }

/-! Helper lemmas. -/

/-- `getParamString` never reports a null-dereference error: its error range
is confined to undeclared-parameter and wrong-type errors. -/
theorem getParamString_not_nullSensor (ps : Params) (n : String)
    (e : DriverErr) (he : getParamString ps n = .error e) :
    e ≠ DriverErr.nullSensor := by
  unfold getParamString at he
  rcases hl : lookupParam ps n with _ | v
  · rw [hl] at he
    cases he
    simp
  · rw [hl] at he
    cases v
    · cases he
      simp
    · cases he

/-- `processData` is a stub, so any number of timer cycles leaves the state
unchanged and produces no events. -/
theorem runCycles_id (n : Nat) (s : DriverState) : runCycles n s = (s, []) := by
  induction n with
  | zero => rfl
  | succ k ih => simp [runCycles, processData, ih]

/-! Claim theorems. -/

/-- C1: whenever the lifecycle state is not Active, both the reset service
and the get-metadata service silently return: state unchanged, no events (so
in particular no re-handshake), no exception, and no response payload
written. -/
theorem c1_services_noop_when_not_active (hw : Configuration → Metadata)
    (s : DriverState) (h : s.lifecycle ≠ LifecycleState.Active) :
    resetService hw s = ⟨s, [], none⟩ ∧
      getMetadataSrv s = (⟨s, [], none⟩, none) := by
  have hb : s.isActive = false := by
    simp [DriverState.isActive, h]
  exact ⟨by simp [resetService, hb], by simp [getMetadataSrv, hb]⟩

/-- C1 witness: a configured Inactive state, where both services return the
state untouched, with no events and no response. -/
theorem c1_services_noop_witness :
    resetService hw0 sInactive0 = ⟨sInactive0, [], none⟩ ∧
      getMetadataSrv sInactive0 = (⟨sInactive0, [], none⟩, none) :=
  c1_services_noop_when_not_active hw0 sInactive0 (by decide)

/-- C3: when the required `lidar_ip` (or `computer_ip`) override is absent,
the constructor terminates the process: it logs the fatal diagnostic and
calls `exit(-1)`, and its event trace contains no socket open — no driver
object ever exists, so the sensor sockets (opened only in `onConfigure`) are
never opened. -/
theorem c3_missing_address_fatal (ov : Params)
    (h : lookupParam ov "lidar_ip" = none ∨
         lookupParam ov "computer_ip" = none) :
    ousterDriverCtor ov = .fatalExit fatalCtorEvents ∧
      socketOpens fatalCtorEvents = [] := by
  refine ⟨?_, rfl⟩
  rcases h with h | h
  · simp [ousterDriverCtor, h]
  · cases hv : lookupParam ov "lidar_ip" <;> simp [ousterDriverCtor, hv, h]

/-- C3 witness: with no overrides at all the constructor exits fatally and
opens no socket. -/
theorem c3_missing_address_fatal_witness :
    ousterDriverCtor [] = .fatalExit fatalCtorEvents ∧
      socketOpens fatalCtorEvents = [] :=
  c3_missing_address_fatal [] (Or.inl rfl)

/-- C4: when the five publishers exist, `onActivate` activates all five and
starts the processing timer with period `timerPeriodNs` nanoseconds, which
is exactly one 1280th of a second (781250 ns × 1280 = 10⁹ ns). -/
theorem c4_activate_arms_and_starts_timer (s : DriverState)
    (a b c d e : Bool)
    (h1 : s.range_im_pub = some a) (h2 : s.intensity_im_pub = some b)
    (h3 : s.noise_im_pub = some c) (h4 : s.pc_pub = some d)
    (h5 : s.imu_pub = some e) :
    onActivate s =
      ⟨{ s with
          range_im_pub := some true
          intensity_im_pub := some true
          noise_im_pub := some true
          pc_pub := some true
          imu_pub := some true
          process_timer := some timerPeriodNs }, [], none⟩ ∧
      timerPeriodNs * 1280 = 1000000000 := by
  exact ⟨by simp [onActivate, h1, h2, h3, h4, h5], rfl⟩

/-- C4 witness: activation of the sample configured Inactive state. -/
theorem c4_activate_witness :
    onActivate sInactive0 =
      ⟨{ sInactive0 with
          range_im_pub := some true
          intensity_im_pub := some true
          noise_im_pub := some true
          pc_pub := some true
          imu_pub := some true
          process_timer := some timerPeriodNs }, [], none⟩ ∧
      timerPeriodNs * 1280 = 1000000000 :=
  c4_activate_arms_and_starts_timer sInactive0 false false false false false
    rfl rfl rfl rfl rfl

/-- C5: when the five publishers exist, `onDeactivate` deactivates them and
drops the processing timer, and modifies nothing else: the result is exactly
the input state with the five activation flags set to false and the timer
cleared, so in particular the sensor handle (PacketSource connection plus
Metadata) and the transform broadcaster are unchanged. -/
theorem c5_deactivate_disarms_only (s : DriverState) (a b c d e : Bool)
    (h1 : s.range_im_pub = some a) (h2 : s.intensity_im_pub = some b)
    (h3 : s.noise_im_pub = some c) (h4 : s.pc_pub = some d)
    (h5 : s.imu_pub = some e) :
    onDeactivate s =
      ⟨{ s with
          range_im_pub := some false
          intensity_im_pub := some false
          noise_im_pub := some false
          pc_pub := some false
          imu_pub := some false
          process_timer := none }, [], none⟩ ∧
      (onDeactivate s).state.sensor = s.sensor ∧
      (onDeactivate s).state.tf_b = s.tf_b := by
  have hd : onDeactivate s =
      ⟨{ s with
          range_im_pub := some false
          intensity_im_pub := some false
          noise_im_pub := some false
          pc_pub := some false
          imu_pub := some false
          process_timer := none }, [], none⟩ := by
    simp [onDeactivate, h1, h2, h3, h4, h5]
  exact ⟨hd, by rw [hd], by rw [hd]⟩

/-- C5 witness: deactivating the sample state after activation. -/
theorem c5_deactivate_witness :
    onDeactivate (onActivate sInactive0).state =
      ⟨{ (onActivate sInactive0).state with
          range_im_pub := some false
          intensity_im_pub := some false
          noise_im_pub := some false
          pc_pub := some false
          imu_pub := some false
          process_timer := none }, [], none⟩ ∧
      (onDeactivate (onActivate sInactive0).state).state.sensor =
        (onActivate sInactive0).state.sensor ∧
      (onDeactivate (onActivate sInactive0).state).state.tf_b =
        (onActivate sInactive0).state.tf_b :=
  c5_deactivate_disarms_only (onActivate sInactive0).state
    true true true true true rfl rfl rfl rfl rfl

/-- C6: `onCleanup` releases the sensor handle (the PacketSource connection
together with the Metadata it holds), all five publishers, and the transform
broadcaster: every resource handle is cleared, returning the driver to the
Unconfigured resource state. -/
theorem c6_cleanup_releases_resources (s : DriverState) :
    onCleanup s =
      ⟨{ s with
          range_im_pub := none
          intensity_im_pub := none
          noise_im_pub := none
          pc_pub := none
          imu_pub := none
          sensor := none
          tf_b := false }, [], none⟩ ∧
      (onCleanup s).state.sensor = none ∧
      (onCleanup s).state.tf_b = false ∧
      (onCleanup s).state.range_im_pub = none ∧
      (onCleanup s).state.intensity_im_pub = none ∧
      (onCleanup s).state.noise_im_pub = none ∧
      (onCleanup s).state.pc_pub = none ∧
      (onCleanup s).state.imu_pub = none :=
  ⟨rfl, rfl, rfl, rfl, rfl, rfl, rfl, rfl⟩

/-- C9: `processData` is a pure no-op: for every driver state it returns the
state unchanged, emits no events (hence publishes on no channel), and raises
nothing. -/
theorem c9_processData_is_noop (s : DriverState) :
    processData s = ⟨s, [], none⟩ ∧
      publishedChannels (processData s).events = [] :=
  ⟨rfl, rfl⟩

/-- C7: from any state holding the five publishers and a connected sensor,
an activate followed by any number of (event-free) `processData` cycles and
a deactivate publishes nothing on any channel, and the sensor handle — the
PacketSource connection — is still the same connected handle when deactivate
returns. -/
theorem c7_activate_deactivate_publishes_nothing (s : DriverState) (n : Nat)
    (a b c d e : Bool) (sen : Sensor)
    (h1 : s.range_im_pub = some a) (h2 : s.intensity_im_pub = some b)
    (h3 : s.noise_im_pub = some c) (h4 : s.pc_pub = some d)
    (h5 : s.imu_pub = some e)
    (hs : s.sensor = some sen) (hc : sen.connected = true) :
    publishedChannels
        ((onActivate s).events ++
         (runCycles n (onActivate s).state).2 ++
         (onDeactivate (runCycles n (onActivate s).state).1).events) = [] ∧
      (onDeactivate (runCycles n (onActivate s).state).1).state.sensor =
        some sen ∧
      sen.connected = true := by
  have hA : onActivate s =
      ⟨{ s with
          range_im_pub := some true
          intensity_im_pub := some true
          noise_im_pub := some true
          pc_pub := some true
          imu_pub := some true
          process_timer := some timerPeriodNs }, [], none⟩ := by
    simp [onActivate, h1, h2, h3, h4, h5]
  rw [hA, runCycles_id]
  refine ⟨?_, ?_, hc⟩
  · simp [onDeactivate, publishedChannels]
  · simp [onDeactivate, hs]

/-- C7 witness: three idle cycles between activate and deactivate on the
sample configured state publish nothing and keep the connected sensor. -/
theorem c7_activate_deactivate_witness :
    publishedChannels
        ((onActivate sInactive0).events ++
         (runCycles 3 (onActivate sInactive0).state).2 ++
         (onDeactivate (runCycles 3 (onActivate sInactive0).state).1).events)
      = [] ∧
      (onDeactivate
          (runCycles 3 (onActivate sInactive0).state).1).state.sensor =
        some sen0 ∧
      sen0.connected = true :=
  c7_activate_deactivate_publishes_nothing sInactive0 3
    false false false false false sen0 rfl rfl rfl rfl rfl rfl rfl

/-- C8 counterexample: `onShutdown` has an empty body, so a state holding a
live sensor handle still holds it after shutdown — shutdown does not release
resources that were not already released. -/
theorem c8_shutdown_counterexample :
    sInactive0.sensor = some sen0 ∧
      (onShutdown sInactive0).state = sInactive0 ∧
      (onShutdown sInactive0).state.sensor ≠ none := by
  refine ⟨rfl, rfl, ?_⟩
  simp [onShutdown, sInactive0]

/-- C8 amended: the shutdown callback releases nothing — for every driver
state it returns the state unchanged with no events and no error, so any
resources still held at shutdown remain held. -/
theorem c8_shutdown_releases_nothing (s : DriverState) :
    onShutdown s = ⟨s, [], none⟩ ∧
      (onShutdown s).state.sensor = s.sensor ∧
      (onShutdown s).state.range_im_pub = s.range_im_pub ∧
      (onShutdown s).state.tf_b = s.tf_b :=
  ⟨rfl, rfl, rfl, rfl⟩

/-- C10: when the transform broadcaster does not exist (before configure
completes, or after cleanup), `broadcastStaticTransforms` broadcasts
nothing: no transform batch is sent, the state is untouched, and no
null-handle dereference occurs. -/
theorem c10_no_broadcast_without_broadcaster (s : DriverState)
    (h : s.tf_b = false) :
    sentTransforms (broadcastStaticTransforms s).events = [] ∧
      (broadcastStaticTransforms s).state = s ∧
      (broadcastStaticTransforms s).err ≠ some DriverErr.nullSensor := by
  rcases hq1 : getParamString s.params "laser_sensor_frame" with e1 | v1
  · refine ⟨?_, ?_, ?_⟩ <;>
      simp [broadcastStaticTransforms, hq1, sentTransforms,
        getParamString_not_nullSensor s.params "laser_sensor_frame" e1 hq1]
  · rcases hq2 : getParamString s.params "laser_data_frame" with e2 | v2
    · refine ⟨?_, ?_, ?_⟩ <;>
        simp [broadcastStaticTransforms, hq1, hq2, sentTransforms,
          getParamString_not_nullSensor s.params "laser_data_frame" e2 hq2]
    · rcases hq3 : getParamString s.params "imu_data_frame" with e3 | v3
      · refine ⟨?_, ?_, ?_⟩ <;>
          simp [broadcastStaticTransforms, hq1, hq2, hq3, sentTransforms,
            getParamString_not_nullSensor s.params "imu_data_frame" e3 hq3]
      · refine ⟨?_, ?_, ?_⟩ <;>
          simp [broadcastStaticTransforms, hq1, hq2, hq3, h, sentTransforms]

/-- C2: evaluation at a concrete well-formed input showing the transform
announcement never happens.  The constructor declares the frame parameters
under the names `sensor_frame`, `laser_frame`, `imu_frame`, but
`broadcastStaticTransforms` reads the undeclared names `laser_sensor_frame`,
`laser_data_frame`, `imu_data_frame` (which are the declared parameters'
default VALUES).  So on a configure with both addresses supplied, the sensor
sockets are opened and the handshake performed, yet `get_parameter` raises
on the undeclared name and zero transforms are broadcast. -/
theorem c2_configure_broadcasts_no_transforms :
    ousterDriverCtor ov0 = .ok ctorState0 ∧
      lookupParam ctorState0.params "sensor_frame" =
        some (.StrV "laser_sensor_frame") ∧
      lookupParam ctorState0.params "laser_sensor_frame" = none ∧
      (onConfigure hw0 ctorState0).err =
        some (.paramNotDeclared "laser_sensor_frame") ∧
      sentTransforms (onConfigure hw0 ctorState0).events = [] ∧
      socketOpens (onConfigure hw0 ctorState0).events = [cfg0] :=
  ⟨rfl, rfl, rfl, rfl, rfl, rfl⟩

/-- C10 witness: the state right after construction has no broadcaster, and
a call there sends nothing. -/
theorem c10_no_broadcast_witness :
    sentTransforms (broadcastStaticTransforms ctorState0).events = [] ∧
      (broadcastStaticTransforms ctorState0).state = ctorState0 ∧
      (broadcastStaticTransforms ctorState0).err ≠
        some DriverErr.nullSensor :=
  c10_no_broadcast_without_broadcaster ctorState0 rfl

end Ros2Ouster
